import Mathlib

/-!
Shallow embedding of the Truth Social tracker bot, covering the two source
variants `src/main.py` (namespace `Main`) and `src/main_new.py` (namespace
`MainNew`): the post data model, the upstream scraper client with its
primary/fallback transports, the tracked-account store commands (`track`,
`untrack`) and the per-account body of the `check_for_new_posts` poll loop.

Network and chat effects are modelled by explicit outcome values: transport
results are inputs (`PrimaryOutcome`, `FallbackOutcome`), and the per-post
embed-build-and-send block is abstracted by a `render : Post → Bool` oracle
saying for which posts that block completes without raising an exception.
-/

/-- A post record as the poll loop consumes it: its `id`, its `content`, and
a chronological index standing for `created_at` (larger means more recent;
the upstream feed is newest-first, so a feed list has decreasing indices). -/
structure Post where
  id : String
  content : String
  createdAt : Nat
deriving Repr, DecidableEq

/-- Fallback element for `List.getLastD`; never selected on the non-empty
lists the code applies it to. -/
def defaultPost : Post := { id := "", content := "", createdAt := 0 }

/-- One raw item of the decoded upstream JSON list: the item's own post
fields, whether the item has a truthy `account` key, and the item's `posts`
key when present (`none` models a missing key). -/
structure Item where
  post : Post
  hasAccount : Bool
  posts? : Option (List Post)
deriving Repr, DecidableEq

/-- What `get_user_data` hands to its caller: either one raw upstream item
returned as-is (`first_item` / `items[0]`), or the synthesized
`{profile, posts}` record. Profile fields play no part in the claims and are
omitted. -/
inductive Data where
  | raw (item : Item)
  | normalized (posts : List Post)
deriving Repr, DecidableEq

/-- `data.get('posts')` on a value returned by `get_user_data`: the raw
item's own `posts` key, or the synthesized record's post list. -/
def Data.posts? : Data → Option (List Post)
  | .raw item => item.posts?
  | .normalized posts => some posts

/-- The post list the detector's guards see: `[]` when the fetch returned no
data or the data has no truthy `posts` entry. -/
def postsOf : Option Data → List Post
  | none => []
  | some d => match d.posts? with
    | none => []
    | some posts => posts

/-- Outcome of the primary transport's HTTP POST
(`run-sync-get-dataset-items`): a response carrying a status code and the
decoded item list, or a raised transport exception. -/
inductive PrimaryOutcome where
  | raises
  | response (status : Nat) (items : List Item)
deriving Repr, DecidableEq

/-- Outcome of the fallback transport (actor call plus dataset fetch): an
exception anywhere inside its `try` block, an actor run without a
`defaultDatasetId`, or a dataset response with a status code and item
list. -/
inductive FallbackOutcome where
  | raises
  | noRun
  | response (status : Nat) (items : List Item)
deriving Repr, DecidableEq

/-- One row of the `tracked_users` table. The autoincrement `id` and
`track_since` columns play no part in the claims and are omitted;
`last_post_id` and `last_post_content` are always written at insert time, so
they are plain strings here. -/
structure TrackedRow where
  username : String
  lastPostId : String
  lastPostContent : String
  notificationCount : Nat
deriving Repr, DecidableEq

/-- Observable outcome of processing one tracked account in one poll cycle:
the posts relayed to the channel in emission order, the account's stored row
afterwards, and how many store writes (`UPDATE` statements) ran. -/
structure AccountOutcome where
  emitted : List Post
  row : TrackedRow
  writes : Nat
deriving Repr, DecidableEq

/-- ASCII case folding: the fragment of Python `str.lower` and of SQLite
`LOWER()` exercised by tracked usernames (SQLite `LOWER` folds ASCII
only). -/
def lowerChar : Char → Char
  | 'A' => 'a'
  | 'B' => 'b'
  | 'C' => 'c'
  | 'D' => 'd'
  | 'E' => 'e'
  | 'F' => 'f'
  | 'G' => 'g'
  | 'H' => 'h'
  | 'I' => 'i'
  | 'J' => 'j'
  | 'K' => 'k'
  | 'L' => 'l'
  | 'M' => 'm'
  | 'N' => 'n'
  | 'O' => 'o'
  | 'P' => 'p'
  | 'Q' => 'q'
  | 'R' => 'r'
  | 'S' => 's'
  | 'T' => 't'
  | 'U' => 'u'
  | 'V' => 'v'
  | 'W' => 'w'
  | 'X' => 'x'
  | 'Y' => 'y'
  | 'Z' => 'z'
  | c => c

/-- Model of Python `str.lower` (and SQLite `LOWER`) on a string. -/
def pyLower (s : String) : String := String.mk (s.data.map lowerChar)

/-- Model of Python `str.strip`: drop whitespace from both ends. -/
def pyStrip (s : String) : String :=
  String.mk (((s.data.dropWhile Char.isWhitespace).reverse.dropWhile
    Char.isWhitespace).reverse)

/-- Model of Python `str.startswith` / the `str(post['id']).startswith`
check. -/
def pyStartsWith (s pre : String) : Bool := pre.data.isPrefixOf s.data

/-- The `track` command's username format check:
`all(c.isalnum() or c == '_' for c in username)` (Python's `all` over the
characters; vacuously true on the empty string). -/
def validUsername (s : String) : Bool :=
  s.data.all (fun c => c.isAlphanum || c == '_')

/-- Result surfaced to the operator by the `track` command. -/
inductive TrackResult where
  | invalidFormat
  | alreadyTracked
  | notFound
  | noPosts
  | tracked
deriving Repr, DecidableEq

/-- Outcome of one `track` request: the user-facing result, the store
afterwards, and whether the upstream fetch (`scraper.get_user_data`) was
reached. -/
structure TrackOutcome where
  result : TrackResult
  store : List TrackedRow
  fetchCalled : Bool
deriving Repr, DecidableEq

/-- Result surfaced to the operator by the `untrack` command. -/
inductive UntrackResult where
  | removed
  | notTracked
deriving Repr, DecidableEq

namespace Main

/-- `src/main.py` `get_user_data_fallback` (lines 149-205): any exception or
a run without a dataset id yields `None`; a dataset response with status
other than 200 yields `None`; a non-empty item list is normalized into the
`{profile, posts}` shape with the items as the posts; an empty list yields
`None`. -/
def get_user_data_fallback : FallbackOutcome → Option Data
  | .raises => none
  | .noRun => none
  | .response status items =>
    if status == 200 then
      if items.isEmpty then none
      else some (Data.normalized (items.map (fun it => it.post)))
    else none

/-- `src/main.py` `get_user_data_direct` (lines 84-147): a status outside
{200, 201} yields `None`; a non-empty item list whose first item has a
truthy `account` key is normalized into `{profile, posts}` with the items as
the posts, otherwise the first item is returned as-is; an empty list yields
`None`. A raised exception is caught and answered by
`get_user_data_fallback`. The second component records whether the fallback
transport was attempted. -/
def get_user_data_direct (p : PrimaryOutcome) (f : FallbackOutcome) :
    Option Data × Bool :=
  match p with
  | .raises => (get_user_data_fallback f, true)
  | .response status items =>
    if status == 200 || status == 201 then
      match items with
      | [] => (none, false)
      | first :: _ =>
        if first.hasAccount then
          (some (Data.normalized (items.map (fun it => it.post))), false)
        else (some (Data.raw first), false)
    else (none, false)

/-- `src/main.py` `get_user_data` (lines 207-216): try the direct method
first; if it returned `None`, use the fallback. -/
def get_user_data (p : PrimaryOutcome) (f : FallbackOutcome) :
    Option Data × Bool :=
  match get_user_data_direct p f with
  | (none, _) => (get_user_data_fallback f, true)
  | (some d, fb) => (some d, fb)

/-- The batch filter of `src/main.py` `check_for_new_posts` (lines 493-495):
keep posts whose id differs from the stored watermark and does not carry the
`mock_` placeholder prefix. -/
def new_posts (lastPostId : String) (posts : List Post) : List Post :=
  posts.filter (fun post =>
    !(post.id == lastPostId) && !(pyStartsWith post.id "mock_"))

/-- The body of `src/main.py` `check_for_new_posts` (lines 467-640) for one
tracked row, given the fetched data. `render post = false` means the
per-post embed-build-and-send block raised; in this variant the inner
`except` (lines 621-623) logs and continues with the next post of the batch.
After the loop the single `UPDATE` stores `new_posts[-1]` (the last element
of the newest-first filtered list) and adds 1 to `notification_count`. -/
def check_account (render : Post → Bool) (data? : Option Data)
    (row : TrackedRow) : AccountOutcome :=
  match data? with
  | none => ⟨[], row, 0⟩
  | some d =>
    match d.posts? with
    | none => ⟨[], row, 0⟩
    | some posts =>
      if posts.isEmpty then ⟨[], row, 0⟩
      else
        let batch := new_posts row.lastPostId posts
        if batch.isEmpty then ⟨[], row, 0⟩
        else
          { emitted := batch.reverse.filter render
            row := { row with
                      lastPostId := (batch.getLastD defaultPost).id
                      lastPostContent := (batch.getLastD defaultPost).content
                      notificationCount := row.notificationCount + 1 }
            writes := 1 }

/-- `src/main.py` `add_user` (lines 268-349), the `track` command: strip and
lowercase the argument, reject bad formats, reject usernames already present
under a case-insensitive (`LOWER(username) = LOWER(?)`) lookup, then fetch;
no data or no posts aborts without a store change; otherwise insert a row
whose watermark is the feed's first (most recent) post. -/
def add_user (fetch : String → Option Data) (store : List TrackedRow)
    (raw : String) : TrackOutcome :=
  let username := pyLower (pyStrip raw)
  if !(validUsername username) then ⟨.invalidFormat, store, false⟩
  else if store.any (fun r => pyLower r.username == pyLower username) then
    ⟨.alreadyTracked, store, false⟩
  else
    match fetch username with
    | none => ⟨.notFound, store, true⟩
    | some d =>
      match Data.posts? d with
      | none => ⟨.noPosts, store, true⟩
      | some [] => ⟨.noPosts, store, true⟩
      | some (latest :: _) =>
        ⟨.tracked, store ++ [⟨username, latest.id, latest.content, 0⟩], true⟩

/-- `src/main.py` `remove_user` (lines 351-366), the `untrack` command:
`DELETE FROM tracked_users WHERE LOWER(username)=LOWER(?)`; succeeds iff at
least one row was affected. -/
def remove_user (store : List TrackedRow) (raw : String) :
    UntrackResult × List TrackedRow :=
  let kept := store.filter (fun r => !(pyLower r.username == pyLower raw))
  if kept.length < store.length then (.removed, kept) else (.notTracked, store)

end Main

namespace MainNew

/-- `src/main_new.py` `get_user_data_fallback` (lines 122-178): identical to
the `src/main.py` fallback. -/
def get_user_data_fallback : FallbackOutcome → Option Data
  | .raises => none
  | .noRun => none
  | .response status items =>
    if status == 200 then
      if items.isEmpty then none
      else some (Data.normalized (items.map (fun it => it.post)))
    else none

/-- `src/main_new.py` `get_user_data_direct` (lines 63-99): only status 200
is a success; on success it returns `items[0] if items else None` — the bare
first item, with no `{profile, posts}` normalization. A raised exception is
caught and answered by `get_user_data_fallback`. -/
def get_user_data_direct (p : PrimaryOutcome) (f : FallbackOutcome) :
    Option Data × Bool :=
  match p with
  | .raises => (get_user_data_fallback f, true)
  | .response status items =>
    if status == 200 then
      match items with
      | [] => (none, false)
      | first :: _ => (some (Data.raw first), false)
    else (none, false)

/-- `src/main_new.py` `get_user_data` (lines 180-189): direct first, then
fallback if the direct result was `None`. -/
def get_user_data (p : PrimaryOutcome) (f : FallbackOutcome) :
    Option Data × Bool :=
  match get_user_data_direct p f with
  | (none, _) => (get_user_data_fallback f, true)
  | (some d, fb) => (some d, fb)

/-- The batch filter of `src/main_new.py` `check_for_new_posts` (line 446):
only posts whose id equals the stored watermark are dropped — there is no
`mock_` placeholder check in this variant. -/
def new_posts (lastPostId : String) (posts : List Post) : List Post :=
  posts.filter (fun post => !(post.id == lastPostId))

/-- The body of `src/main_new.py` `check_for_new_posts` (lines 440-509) for
one tracked row. The per-post loop (lines 451-493) has no inner
`try`/`except`: a raised render failure propagates to the per-account
handler (line 508), which logs and moves to the next account, so the rest of
the batch is dropped and the `UPDATE` (lines 495-506) never runs. When every
post renders, the single `UPDATE` stores `new_posts[-1]` and adds 1 to
`notification_count`. -/
def check_account (render : Post → Bool) (data? : Option Data)
    (row : TrackedRow) : AccountOutcome :=
  match data? with
  | none => ⟨[], row, 0⟩
  | some d =>
    match d.posts? with
    | none => ⟨[], row, 0⟩
    | some posts =>
      if posts.isEmpty then ⟨[], row, 0⟩
      else
        let batch := new_posts row.lastPostId posts
        if batch.isEmpty then ⟨[], row, 0⟩
        else
          let pending := batch.reverse
          if pending.all render then
            { emitted := pending
              row := { row with
                        lastPostId := (batch.getLastD defaultPost).id
                        lastPostContent := (batch.getLastD defaultPost).content
                        notificationCount := row.notificationCount + 1 }
              writes := 1 }
          else ⟨pending.takeWhile render, row, 0⟩

/-- `src/main_new.py` `add_user` (lines 241-322): identical logic to the
`src/main.py` `track` command. -/
def add_user (fetch : String → Option Data) (store : List TrackedRow)
    (raw : String) : TrackOutcome :=
  let username := pyLower (pyStrip raw)
  if !(validUsername username) then ⟨.invalidFormat, store, false⟩
  else if store.any (fun r => pyLower r.username == pyLower username) then
    ⟨.alreadyTracked, store, false⟩
  else
    match fetch username with
    | none => ⟨.notFound, store, true⟩
    | some d =>
      match Data.posts? d with
      | none => ⟨.noPosts, store, true⟩
      | some [] => ⟨.noPosts, store, true⟩
      | some (latest :: _) =>
        ⟨.tracked, store ++ [⟨username, latest.id, latest.content, 0⟩], true⟩

/-- `src/main_new.py` `remove_user` (lines 324-339), the `untrack` command:
`DELETE FROM tracked_users WHERE username=?` — an exact, case-sensitive
string match on the raw argument; succeeds iff at least one row was
affected. -/
def remove_user (store : List TrackedRow) (raw : String) :
    UntrackResult × List TrackedRow :=
  let kept := store.filter (fun r => !(r.username == raw))
  if kept.length < store.length then (.removed, kept) else (.notTracked, store)

end MainNew

/-- A primary-transport call that the claims treat as failed: it raised, or
its response status is outside the success set {200, 201} accepted by
`src/main.py`. -/
def primaryFailed : PrimaryOutcome → Bool
  | .raises => true
  | .response status _ => !(status == 200 || status == 201)

/-- The two variants' `track` commands are the same function. -/
theorem add_user_variants_agree : MainNew.add_user = Main.add_user := rfl

/-- The two variants' fallback transports are the same function. -/
theorem fallback_variants_agree :
    MainNew.get_user_data_fallback = Main.get_user_data_fallback := rfl

theorem lowerChar_cases (c : Char) :
    lowerChar c = c ∨ lowerChar c ∈
      ['a', 'b', 'c', 'd', 'e', 'f', 'g', 'h', 'i', 'j', 'k', 'l', 'm',
       'n', 'o', 'p', 'q', 'r', 's', 't', 'u', 'v', 'w', 'x', 'y', 'z'] := by
  unfold lowerChar
  split <;> simp

theorem lowerChar_idem (c : Char) : lowerChar (lowerChar c) = lowerChar c := by
  rcases lowerChar_cases c with h | h
  · rw [h]; exact h
  · simp only [List.mem_cons, List.not_mem_nil, or_false] at h
    rcases h with h | h | h | h | h | h | h | h | h | h | h | h | h | h | h |
      h | h | h | h | h | h | h | h | h | h | h <;> rw [h] <;> decide

theorem pyLower_idem (s : String) : pyLower (pyLower s) = pyLower s := by
  cases s with
  | mk data =>
    show String.mk ((data.map lowerChar).map lowerChar) = String.mk (data.map lowerChar)
    rw [List.map_map]
    exact congrArg String.mk (List.map_congr_left (fun c _ => lowerChar_idem c))

theorem getLastD_mem {α : Type} (l : List α) : ∀ d : α, l ≠ [] → l.getLastD d ∈ l := by
  induction l with
  | nil => intro d h; exact absurd rfl h
  | cons a as ih =>
    intro d _
    rw [List.getLastD_cons]
    cases as with
    | nil => simp [List.getLastD]
    | cons b bs => exact List.mem_cons_of_mem a (ih b (by simp))

/-- C1: on the newest-first feed `[id 102, id 101, id 100]` with stored
watermark `100`, both variants perform exactly one store write that
increments `notificationCount` by 1 — but the write stores `new_posts[-1]`,
the chronologically OLDEST new post (`101`, `created_at` 101), not the
chronologically latest one (`102`, `created_at` 102) that the claim (and the
code's own comment `Update database with latest post`) requires. -/
theorem check_for_new_posts_stores_oldest_new_post :
    Main.check_account (fun _ => true)
        (some (Data.normalized
          [⟨"102", "c2", 102⟩, ⟨"101", "c1", 101⟩, ⟨"100", "c0", 100⟩]))
        ⟨"x", "100", "c0", 0⟩ =
      ⟨[⟨"101", "c1", 101⟩, ⟨"102", "c2", 102⟩], ⟨"x", "101", "c1", 1⟩, 1⟩
    ∧ (Main.check_account (fun _ => true)
        (some (Data.normalized
          [⟨"102", "c2", 102⟩, ⟨"101", "c1", 101⟩, ⟨"100", "c0", 100⟩]))
        ⟨"x", "100", "c0", 0⟩).row.lastPostId ≠ "102"
    ∧ (MainNew.check_account (fun _ => true)
        (some (Data.normalized
          [⟨"102", "c2", 102⟩, ⟨"101", "c1", 101⟩, ⟨"100", "c0", 100⟩]))
        ⟨"x", "100", "c0", 0⟩).row.lastPostId = "101" := by
  refine ⟨by decide, by decide, by decide⟩

/-- C8: the claim's case-insensitive untrack holds for `src/main.py` but not
for `src/main_new.py`: with the row `alice` stored, `untrack "ALICE"` removes
the row in the main variant yet answers NotTracked and leaves the store
unchanged in the main_new variant, whose `DELETE` matches the raw username
exactly. -/
theorem untrack_case_sensitivity_divergence :
    MainNew.remove_user [⟨"alice", "1", "hi", 0⟩] "ALICE" =
      (UntrackResult.notTracked, [⟨"alice", "1", "hi", 0⟩])
    ∧ Main.remove_user [⟨"alice", "1", "hi", 0⟩] "ALICE" =
      (UntrackResult.removed, []) := by
  refine ⟨by decide, by decide⟩

/-- C2 counterexample: in the `src/main_new.py` variant a render failure on
the first post of the batch (`id 2`) aborts the whole batch — the later,
perfectly renderable post `id 3` is not emitted and the watermark write does
not happen (row unchanged, zero writes) — contradicting the claim that
processing continues with the next post and the watermark write still
occurs. -/
theorem render_failure_aborts_batch_in_main_new :
    MainNew.check_account (fun p => !(p.id == "2"))
        (some (Data.normalized
          [⟨"3", "c3", 3⟩, ⟨"2", "c2", 2⟩, ⟨"1", "c1", 1⟩]))
        ⟨"x", "1", "c1", 0⟩ = ⟨[], ⟨"x", "1", "c1", 0⟩, 0⟩
    ∧ (fun p : Post => !(p.id == "2")) ⟨"3", "c3", 3⟩ = true
    ∧ (fun p : Post => !(p.id == "2")) ⟨"2", "c2", 2⟩ = false := by
  refine ⟨by decide, by decide, by decide⟩

/-- C3 counterexample: the `src/main_new.py` filter keeps a placeholder post
whose id carries the reserved `mock_` prefix — it is relayed and becomes the
stored `lastPostId` — contradicting the claim that such posts are never
relayed and never become the watermark. -/
theorem mock_post_relayed_in_main_new :
    MainNew.check_account (fun _ => true)
        (some (Data.normalized [⟨"mock_99", "m", 99⟩, ⟨"7", "c7", 7⟩]))
        ⟨"x", "7", "c7", 3⟩ =
      ⟨[⟨"mock_99", "m", 99⟩], ⟨"x", "mock_99", "m", 4⟩, 1⟩
    ∧ pyStartsWith "mock_99" "mock_" = true := by
  refine ⟨by decide, by decide⟩

/-- C5: in both variants, when the fetch yields no new posts after filtering
(no data, an empty post list, or every post filtered out), the account's
processing performs no store write, leaves the stored row untouched and
emits nothing, so running the cycle twice equals running it once. -/
theorem no_new_posts_idempotent (render : Post → Bool) (data? : Option Data)
    (row : TrackedRow) :
    (Main.new_posts row.lastPostId (postsOf data?) = [] →
      Main.check_account render data? row = ⟨[], row, 0⟩
      ∧ Main.check_account render data?
          (Main.check_account render data? row).row =
        Main.check_account render data? row)
    ∧ (MainNew.new_posts row.lastPostId (postsOf data?) = [] →
      MainNew.check_account render data? row = ⟨[], row, 0⟩
      ∧ MainNew.check_account render data?
          (MainNew.check_account render data? row).row =
        MainNew.check_account render data? row) := by
  constructor
  · intro h
    have h1 : Main.check_account render data? row = ⟨[], row, 0⟩ := by
      cases data? with
      | none => rfl
      | some d =>
        cases hp : d.posts? with
        | none => simp [Main.check_account, hp]
        | some posts =>
          have hb : Main.new_posts row.lastPostId posts = [] := by
            simpa [postsOf, hp] using h
          by_cases he : posts.isEmpty <;> simp [Main.check_account, hp, he, hb]
    refine ⟨h1, ?_⟩
    rw [h1]
    exact h1
  · intro h
    have h1 : MainNew.check_account render data? row = ⟨[], row, 0⟩ := by
      cases data? with
      | none => rfl
      | some d =>
        cases hp : d.posts? with
        | none => simp [MainNew.check_account, hp]
        | some posts =>
          have hb : MainNew.new_posts row.lastPostId posts = [] := by
            simpa [postsOf, hp] using h
          by_cases he : posts.isEmpty <;>
            simp [MainNew.check_account, hp, he, hb]
    refine ⟨h1, ?_⟩
    rw [h1]
    exact h1

/-- Witness for C5: a feed whose only post carries the stored watermark id
is fully filtered out, and the cycle changes nothing in either variant. -/
theorem no_new_posts_idempotent_witness :
    Main.check_account (fun _ => true)
        (some (Data.normalized [⟨"1", "c", 1⟩])) ⟨"x", "1", "c", 5⟩ =
      ⟨[], ⟨"x", "1", "c", 5⟩, 0⟩
    ∧ MainNew.check_account (fun _ => true)
        (some (Data.normalized [⟨"1", "c", 1⟩])) ⟨"x", "1", "c", 5⟩ =
      ⟨[], ⟨"x", "1", "c", 5⟩, 0⟩ := by
  have h := no_new_posts_idempotent (fun _ => true)
    (some (Data.normalized [⟨"1", "c", 1⟩])) ⟨"x", "1", "c", 5⟩
  exact ⟨(h.1 (by decide)).1, (h.2 (by decide)).1⟩

/-- C2 amended: in the `src/main.py` variant per-post render failures are
isolated — the stored row and the number of store writes are exactly those
of an all-successful run, and the emitted posts are the successfully
rendered ones of the full batch, in batch order; in the `src/main_new.py`
variant, however, a render failure anywhere in the batch (the batch being
what an all-successful run would emit) aborts the account's processing with
no store write and the row unchanged. -/
theorem render_failure_policy (render : Post → Bool) (data? : Option Data)
    (row : TrackedRow) :
    ((Main.check_account render data? row).row =
        (Main.check_account (fun _ => true) data? row).row
    ∧ (Main.check_account render data? row).writes =
        (Main.check_account (fun _ => true) data? row).writes
    ∧ (Main.check_account render data? row).emitted =
        ((Main.check_account (fun _ => true) data? row).emitted).filter render)
    ∧ (((MainNew.check_account (fun _ => true) data? row).emitted).all render
          = false →
      (MainNew.check_account render data? row).row = row
      ∧ (MainNew.check_account render data? row).writes = 0) := by
  constructor
  · cases data? with
    | none => simp [Main.check_account]
    | some d =>
      cases hp : d.posts? with
      | none => simp [Main.check_account, hp]
      | some posts =>
        by_cases he : posts.isEmpty
        · simp [Main.check_account, hp, he]
        · by_cases hb : (Main.new_posts row.lastPostId posts).isEmpty
          · simp [Main.check_account, hp, he, hb]
          · simp [Main.check_account, hp, he, hb, List.filter_true]
  · intro h
    cases data? with
    | none => simp [MainNew.check_account] at h
    | some d =>
      cases hp : d.posts? with
      | none => simp [MainNew.check_account, hp] at h
      | some posts =>
        by_cases he : posts.isEmpty
        · simp [MainNew.check_account, hp, he] at h
        · by_cases hb : (MainNew.new_posts row.lastPostId posts).isEmpty
          · simp [MainNew.check_account, hp, he, hb] at h
          · have hall : ((MainNew.new_posts row.lastPostId posts).reverse).all
                (fun _ => true) = true := by simp
            simp only [MainNew.check_account, hp, he, hb, hall, if_true,
              if_false, Bool.false_eq_true, ite_false, ite_true] at h ⊢
            simp at h
            obtain ⟨x, hx, hfx⟩ := h
            have hc : ((MainNew.new_posts row.lastPostId posts).reverse).all
                render = false := by
              rw [List.all_eq_false]
              exact ⟨x, by simpa using hx, by simp [hfx]⟩
            rw [hc]
            exact ⟨rfl, rfl⟩

/-- Witness for C2 amended: with a render oracle failing on post `id 2`, the
main variant's store outcome matches the all-successful run, while the
main_new variant performs no store write. -/
theorem render_failure_policy_witness :
    (Main.check_account (fun p => !(p.id == "2"))
        (some (Data.normalized
          [⟨"3", "c3", 3⟩, ⟨"2", "c2", 2⟩, ⟨"1", "c1", 1⟩]))
        ⟨"x", "1", "c1", 0⟩).row =
      (Main.check_account (fun _ => true)
        (some (Data.normalized
          [⟨"3", "c3", 3⟩, ⟨"2", "c2", 2⟩, ⟨"1", "c1", 1⟩]))
        ⟨"x", "1", "c1", 0⟩).row
    ∧ (MainNew.check_account (fun p => !(p.id == "2"))
        (some (Data.normalized
          [⟨"3", "c3", 3⟩, ⟨"2", "c2", 2⟩, ⟨"1", "c1", 1⟩]))
        ⟨"x", "1", "c1", 0⟩).writes = 0 := by
  have h := render_failure_policy (fun p => !(p.id == "2"))
    (some (Data.normalized
      [⟨"3", "c3", 3⟩, ⟨"2", "c2", 2⟩, ⟨"1", "c1", 1⟩]))
    ⟨"x", "1", "c1", 0⟩
  exact ⟨h.1.1, (h.2 (by decide)).2⟩

/-- C3 amended: in the `src/main.py` variant the claim holds as stated — no
emitted post, and no stored watermark after a write, carries the current
watermark id or the reserved `mock_` placeholder prefix; in the
`src/main_new.py` variant only the watermark-equality exclusion is applied
(placeholder-prefixed posts are relayed and can become the stored
`lastPostId`, as the counterexample shows). -/
theorem filter_excludes_watermark_and_placeholder (render : Post → Bool)
    (data? : Option Data) (row : TrackedRow) :
    (∀ p ∈ (Main.check_account render data? row).emitted,
      p.id ≠ row.lastPostId ∧ pyStartsWith p.id "mock_" = false)
    ∧ ((Main.check_account render data? row).writes = 1 →
      (Main.check_account render data? row).row.lastPostId ≠ row.lastPostId
      ∧ pyStartsWith
          ((Main.check_account render data? row).row.lastPostId) "mock_"
        = false)
    ∧ (∀ p ∈ (MainNew.check_account render data? row).emitted,
      p.id ≠ row.lastPostId) := by
  have hmemM : ∀ posts : List Post, ∀ p ∈ Main.new_posts row.lastPostId posts,
      p.id ≠ row.lastPostId ∧ pyStartsWith p.id "mock_" = false := by
    intro posts p hp
    obtain ⟨-, hpred⟩ := List.mem_filter.mp hp
    simp only [Bool.and_eq_true, Bool.not_eq_true', beq_eq_false_iff_ne,
      ne_eq] at hpred
    exact hpred
  have hmemN : ∀ posts : List Post,
      ∀ p ∈ MainNew.new_posts row.lastPostId posts,
      p.id ≠ row.lastPostId := by
    intro posts p hp
    obtain ⟨-, hpred⟩ := List.mem_filter.mp hp
    simpa using hpred
  refine ⟨?_, ?_, ?_⟩
  · cases data? with
    | none => simp [Main.check_account]
    | some d =>
      cases hp : d.posts? with
      | none => simp [Main.check_account, hp]
      | some posts =>
        by_cases he : posts.isEmpty
        · simp [Main.check_account, hp, he]
        · by_cases hb : (Main.new_posts row.lastPostId posts).isEmpty
          · simp [Main.check_account, hp, he, hb]
          · intro p hmem
            simp only [Main.check_account, hp, he, hb, if_false,
              Bool.false_eq_true, ite_false] at hmem
            have h1 := (List.mem_filter.mp hmem).1
            exact hmemM posts p (List.mem_reverse.mp h1)
  · cases data? with
    | none => simp [Main.check_account]
    | some d =>
      cases hp : d.posts? with
      | none => simp [Main.check_account, hp]
      | some posts =>
        by_cases he : posts.isEmpty
        · simp [Main.check_account, hp, he]
        · by_cases hb : (Main.new_posts row.lastPostId posts).isEmpty
          · simp [Main.check_account, hp, he, hb]
          · intro _
            have hne : Main.new_posts row.lastPostId posts ≠ [] := by
              simpa [List.isEmpty_iff] using hb
            have hlast := getLastD_mem (Main.new_posts row.lastPostId posts)
              defaultPost hne
            have := hmemM posts _ hlast
            simpa [Main.check_account, hp, he, hb] using this
  · cases data? with
    | none => simp [MainNew.check_account]
    | some d =>
      cases hp : d.posts? with
      | none => simp [MainNew.check_account, hp]
      | some posts =>
        by_cases he : posts.isEmpty
        · simp [MainNew.check_account, hp, he]
        · by_cases hb : (MainNew.new_posts row.lastPostId posts).isEmpty
          · simp [MainNew.check_account, hp, he, hb]
          · intro p hmem
            simp only [MainNew.check_account, hp, he, hb, if_false,
              Bool.false_eq_true, ite_false] at hmem
            by_cases hall :
                ((MainNew.new_posts row.lastPostId posts).reverse).all render
                  = true
            · rw [if_pos hall] at hmem
              exact hmemN posts p (List.mem_reverse.mp hmem)
            · rw [if_neg hall] at hmem
              have h1 := List.takeWhile_subset render hmem
              exact hmemN posts p (List.mem_reverse.mp h1)

/-- Witness for C3 amended: on the concrete C1 feed, the emitted post
`id 101` and the stored watermark differ from the old watermark `100` and
carry no `mock_` prefix. -/
theorem filter_excludes_watermark_and_placeholder_witness :
    ((⟨"101", "c1", 101⟩ : Post).id ≠ "100"
      ∧ pyStartsWith (Post.id ⟨"101", "c1", 101⟩) "mock_" = false)
    ∧ (Main.check_account (fun _ => true)
        (some (Data.normalized
          [⟨"102", "c2", 102⟩, ⟨"101", "c1", 101⟩, ⟨"100", "c0", 100⟩]))
        ⟨"x", "100", "c0", 0⟩).row.lastPostId ≠ "100" := by
  have h := filter_excludes_watermark_and_placeholder (fun _ => true)
    (some (Data.normalized
      [⟨"102", "c2", 102⟩, ⟨"101", "c1", 101⟩, ⟨"100", "c0", 100⟩]))
    ⟨"x", "100", "c0", 0⟩
  exact ⟨h.1 ⟨"101", "c1", 101⟩ (by decide), (h.2.1 (by decide)).1⟩

/-- C4: for every account whose fetched feed is the newest-first list
`[p3, p2, p1]` and whose stored watermark is `p1.id`, with `p2` and `p3`
genuinely new (ids differing from the watermark and carrying no placeholder
prefix, renders succeeding), both variants emit exactly `p2` then `p3`, in
that order: the filtered list is reversed before emission. -/
theorem detector_emits_oldest_first (row : TrackedRow) (p1 p2 p3 : Post)
    (hw : row.lastPostId = p1.id)
    (h2 : p2.id ≠ p1.id) (h3 : p3.id ≠ p1.id)
    (m2 : pyStartsWith p2.id "mock_" = false)
    (m3 : pyStartsWith p3.id "mock_" = false) :
    (Main.check_account (fun _ => true)
      (some (Data.normalized [p3, p2, p1])) row).emitted = [p2, p3]
    ∧ (MainNew.check_account (fun _ => true)
      (some (Data.normalized [p3, p2, p1])) row).emitted = [p2, p3] := by
  have h2b : (p2.id == p1.id) = false := beq_eq_false_iff_ne.mpr h2
  have h3b : (p3.id == p1.id) = false := beq_eq_false_iff_ne.mpr h3
  have h1b : (p1.id == p1.id) = true := beq_self_eq_true p1.id
  have hbM : Main.new_posts row.lastPostId [p3, p2, p1] = [p3, p2] := by
    simp [Main.new_posts, List.filter, hw, h2b, h3b, h1b, m2, m3]
  have hbN : MainNew.new_posts row.lastPostId [p3, p2, p1] = [p3, p2] := by
    simp [MainNew.new_posts, List.filter, hw, h2b, h3b, h1b]
  constructor
  · simp [Main.check_account, Data.posts?, hbM, List.filter_true]
  · simp [MainNew.check_account, Data.posts?, hbN]

/-- Witness for C4: the concrete feed `[102, 101, 100]` against watermark
`100` yields the emission order `[101, 102]` in both variants. -/
theorem detector_emits_oldest_first_witness :
    (Main.check_account (fun _ => true)
      (some (Data.normalized
        [⟨"102", "c2", 102⟩, ⟨"101", "c1", 101⟩, ⟨"100", "c0", 100⟩]))
      ⟨"x", "100", "c0", 0⟩).emitted =
        [⟨"101", "c1", 101⟩, ⟨"102", "c2", 102⟩]
    ∧ (MainNew.check_account (fun _ => true)
      (some (Data.normalized
        [⟨"102", "c2", 102⟩, ⟨"101", "c1", 101⟩, ⟨"100", "c0", 100⟩]))
      ⟨"x", "100", "c0", 0⟩).emitted =
        [⟨"101", "c1", 101⟩, ⟨"102", "c2", 102⟩] :=
  detector_emits_oldest_first ⟨"x", "100", "c0", 0⟩
    ⟨"100", "c0", 100⟩ ⟨"101", "c1", 101⟩ ⟨"102", "c2", 102⟩
    rfl (by decide) (by decide) (by decide) (by decide)

/-- C6: for every primary and fallback transport outcome, if the primary
transport raised or returned a non-success status, `get_user_data` attempts
the fallback transport and its answer is exactly the fallback's; and the
call answers "no data" (`none`) precisely when the direct path and the
fallback path both produced none — in particular both failing yields `none`.
The functions are total, so no outcome raises to the caller. -/
theorem get_user_data_fallback_policy (p : PrimaryOutcome)
    (f : FallbackOutcome) :
    (primaryFailed p = true →
      (Main.get_user_data p f).2 = true
      ∧ (Main.get_user_data p f).1 = Main.get_user_data_fallback f)
    ∧ ((Main.get_user_data p f).1 = none ↔
      (Main.get_user_data_direct p f).1 = none
      ∧ Main.get_user_data_fallback f = none) := by
  cases p with
  | raises =>
    cases hf : Main.get_user_data_fallback f with
    | none =>
      simp [Main.get_user_data, Main.get_user_data_direct, hf, primaryFailed]
    | some d =>
      simp [Main.get_user_data, Main.get_user_data_direct, hf, primaryFailed]
  | response status items =>
    by_cases hs : (status == 200 || status == 201) = true
    · cases items with
      | nil =>
        cases hf : Main.get_user_data_fallback f with
        | none =>
          simp [Main.get_user_data, Main.get_user_data_direct, hs, hf,
            primaryFailed]
        | some d =>
          simp [Main.get_user_data, Main.get_user_data_direct, hs, hf,
            primaryFailed]
      | cons first rest =>
        by_cases ha : first.hasAccount = true
        · simp [Main.get_user_data, Main.get_user_data_direct, hs, ha,
            primaryFailed]
        · simp [Main.get_user_data, Main.get_user_data_direct, hs, ha,
            primaryFailed]
    · cases hf : Main.get_user_data_fallback f with
      | none =>
        simp [Main.get_user_data, Main.get_user_data_direct, hs, hf,
          primaryFailed]
      | some d =>
        simp [Main.get_user_data, Main.get_user_data_direct, hs, hf,
          primaryFailed]

/-- Witness for C6: a primary response with status 500 together with a
raising fallback — the fallback is attempted and the call returns `none`. -/
theorem get_user_data_fallback_policy_witness :
    (Main.get_user_data (PrimaryOutcome.response 500 [])
      FallbackOutcome.raises).2 = true
    ∧ (Main.get_user_data (PrimaryOutcome.response 500 [])
      FallbackOutcome.raises).1 = none := by
  have h := get_user_data_fallback_policy (PrimaryOutcome.response 500 [])
    FallbackOutcome.raises
  exact ⟨(h.1 (by decide)).1, h.2.mpr ⟨by decide, by decide⟩⟩

theorem add_user_tracked_shape (fetch : String → Option Data)
    (store : List TrackedRow) (raw : String)
    (h : (Main.add_user fetch store raw).result = TrackResult.tracked) :
    validUsername (pyLower (pyStrip raw)) = true
    ∧ ∃ pid pc, (Main.add_user fetch store raw).store =
        store ++ [⟨pyLower (pyStrip raw), pid, pc, 0⟩] := by
  by_cases hv : validUsername (pyLower (pyStrip raw)) = true
  · by_cases ha : store.any
        (fun r => pyLower r.username == pyLower (pyLower (pyStrip raw))) = true
    · exfalso
      simp [Main.add_user, hv, ha] at h
    · cases hf : fetch (pyLower (pyStrip raw)) with
      | none => exfalso; simp [Main.add_user, hv, ha, hf] at h
      | some d =>
        cases hp : Data.posts? d with
        | none => exfalso; simp [Main.add_user, hv, ha, hf, hp] at h
        | some ps =>
          cases ps with
          | nil => exfalso; simp [Main.add_user, hv, ha, hf, hp] at h
          | cons latest rest =>
            refine ⟨hv, latest.id, latest.content, ?_⟩
            simp [Main.add_user, hv, ha, hf, hp]
  · exfalso
    have hv' : validUsername (pyLower (pyStrip raw)) = false := by
      revert hv
      cases validUsername (pyLower (pyStrip raw)) <;> simp
    simp [Main.add_user, hv'] at h

/-- C7: tracking the same account twice under different letter case — the
second request, whose stripped-and-lowercased name coincides with the
first's, answers AlreadyTracked, inserts no row and reaches no network
call; and a request whose normalized name fails the
alphanumeric-or-underscore format check is rejected before the store lookup
and before any network call, with the store unchanged. -/
theorem track_case_fold_and_format (fetch : String → Option Data)
    (store : List TrackedRow) (u₁ u₂ u₃ : String) :
    (pyLower (pyStrip u₂) = pyLower (pyStrip u₁) →
      (Main.add_user fetch store u₁).result = TrackResult.tracked →
      Main.add_user fetch (Main.add_user fetch store u₁).store u₂ =
        ⟨TrackResult.alreadyTracked, (Main.add_user fetch store u₁).store,
         false⟩)
    ∧ (validUsername (pyLower (pyStrip u₃)) = false →
      Main.add_user fetch store u₃ =
        ⟨TrackResult.invalidFormat, store, false⟩) := by
  constructor
  · intro hnorm htr
    obtain ⟨hv, pid, pc, hst⟩ := add_user_tracked_shape fetch store u₁ htr
    rw [hst]
    simp [Main.add_user, hnorm, hv, List.any_append]
  · intro hv
    simp [Main.add_user, hv]

/-- Witness for C7: tracking `Alice` then `ALICE` on an empty store answers
AlreadyTracked without a store change, and `bad!name` is rejected by the
format check with no fetch. -/
theorem track_case_fold_and_format_witness :
    Main.add_user (fun _ => some (Data.normalized [⟨"9", "p", 9⟩]))
      (Main.add_user (fun _ => some (Data.normalized [⟨"9", "p", 9⟩]))
        [] "Alice").store "ALICE" =
      ⟨TrackResult.alreadyTracked,
       (Main.add_user (fun _ => some (Data.normalized [⟨"9", "p", 9⟩]))
         [] "Alice").store, false⟩
    ∧ Main.add_user (fun _ => some (Data.normalized [⟨"9", "p", 9⟩]))
        [] "bad!name" =
      ⟨TrackResult.invalidFormat, [], false⟩ := by
  have h := track_case_fold_and_format
    (fun _ => some (Data.normalized [⟨"9", "p", 9⟩])) [] "Alice" "ALICE"
    "bad!name"
  exact ⟨h.1 (by decide) (by decide), h.2 (by decide)⟩

/-- C9: in the `src/main_new.py` variant, a primary success (status 200)
with a non-empty item list makes `get_user_data` return the bare first item
(`Data.raw`, not a synthesized `{profile, posts}` record); when that item
carries no `posts` key, the poll loop's guard skips the account — nothing is
emitted, the row is unchanged and no store write happens. -/
theorem main_new_direct_returns_first_item (f : FallbackOutcome)
    (first : Item) (rest : List Item) (render : Post → Bool)
    (row : TrackedRow) :
    (MainNew.get_user_data (PrimaryOutcome.response 200 (first :: rest)) f).1 =
      some (Data.raw first)
    ∧ (first.posts? = none →
      MainNew.check_account render (some (Data.raw first)) row =
        ⟨[], row, 0⟩) := by
  constructor
  · simp [MainNew.get_user_data, MainNew.get_user_data_direct]
  · intro h
    simp [MainNew.check_account, Data.posts?, h]

/-- Witness for C9: a concrete post-shaped item with no `posts` key is
returned bare by the direct path and skipped by the poll loop's guard. -/
theorem main_new_direct_returns_first_item_witness :
    (MainNew.get_user_data
      (PrimaryOutcome.response 200 [⟨⟨"5", "hello", 5⟩, true, none⟩])
      FallbackOutcome.raises).1 =
      some (Data.raw ⟨⟨"5", "hello", 5⟩, true, none⟩)
    ∧ MainNew.check_account (fun _ => true)
        (some (Data.raw ⟨⟨"5", "hello", 5⟩, true, none⟩))
        ⟨"x", "1", "c", 0⟩ = ⟨[], ⟨"x", "1", "c", 0⟩, 0⟩ := by
  have h := main_new_direct_returns_first_item FallbackOutcome.raises
    ⟨⟨"5", "hello", 5⟩, true, none⟩ [] (fun _ => true) ⟨"x", "1", "c", 0⟩
  exact ⟨h.1, h.2 rfl⟩

/-- C10: the username format check accepts the empty string (Python's `all`
over no characters), so `track ""` is not rejected by format validation —
it proceeds to the store lookup and, when no stored name lowercases to the
empty string, on to the upstream fetch; and the format check rejects a
username exactly when it contains a character that is neither alphanumeric
nor an underscore (which forces the username to be non-empty). -/
theorem empty_username_passes_format_check (fetch : String → Option Data)
    (store : List TrackedRow) (u : String) :
    validUsername "" = true
    ∧ (Main.add_user fetch store "").result ≠ TrackResult.invalidFormat
    ∧ (store.any (fun r => pyLower r.username == "") = false →
      (Main.add_user fetch store "").fetchCalled = true)
    ∧ (validUsername u = false ↔
      ∃ c ∈ u.data, (c.isAlphanum || c == '_') = false) := by
  have hnorm : pyLower (pyStrip "") = "" := by decide
  have hlow : pyLower "" = "" := by decide
  have hvempty : validUsername "" = true := by decide
  refine ⟨by decide, ?_, ?_, ?_⟩
  · by_cases ha : ∃ x ∈ store, pyLower x.username = ""
    · simp [Main.add_user, hnorm, hlow, hvempty, ha]
    · cases hf : fetch "" with
      | none =>
        simp [Main.add_user, hnorm, hlow, hvempty, ha, hf]
      | some d =>
        cases hp : Data.posts? d with
        | none => simp [Main.add_user, hnorm, hlow, hvempty, ha, hf, hp]
        | some ps =>
          cases ps with
          | nil => simp [Main.add_user, hnorm, hlow, hvempty, ha, hf, hp]
          | cons latest rest =>
            simp [Main.add_user, hnorm, hlow, hvempty, ha, hf, hp]
  · intro ha
    have ha2 : ¬ ∃ x ∈ store, pyLower x.username = "" := by
      simpa using ha
    cases hf : fetch "" with
    | none =>
      simp [Main.add_user, hnorm, hlow, hvempty, ha2, hf]
    | some d =>
      cases hp : Data.posts? d with
      | none => simp [Main.add_user, hnorm, hlow, hvempty, ha2, hf, hp]
      | some ps =>
        cases ps with
        | nil => simp [Main.add_user, hnorm, hlow, hvempty, ha2, hf, hp]
        | cons latest rest =>
          simp [Main.add_user, hnorm, hlow, hvempty, ha2, hf, hp]
  · unfold validUsername
    rw [List.all_eq_false]
    simp

/-- Witness for C10: on an empty store, `track ""` passes the format check
and reaches the upstream fetch. -/
theorem empty_username_passes_format_check_witness :
    (Main.add_user (fun _ => none) [] "").fetchCalled = true := by
  have h := empty_username_passes_format_check (fun _ => none) [] "a!"
  exact h.2.2.1 (by decide)
